import Mathlib

/-!
Shallow embedding of `src/streamlit_pptx_app.py`: a Streamlit app that, on a
button click, renders a fixed ten-slide CCSP presentation into
`cloud_security_ccsp.pdf` using reportlab, offers the bytes for download and
deletes the transient file.

Modelling conventions:
* reportlab flowables (Paragraph, Spacer, Table, Drawing/VerticalBarChart)
  become a small inductive `Flowable`; colors become the inductive `PColor`
  carrying exactly the seven hex constants of lines 28-34.
* lengths are naturals measured in deci-points (`inch = 720`), mirroring
  the numeric literals of the source exactly (`6*inch` stays `6 * inch`;
  fractional factors become exact divisions, e.g. `1.5*inch` is
  `15 * inch / 10`).
* `doc.build(story)` is modelled as a build event committing one story; the
  function `generate_pdf` is viewed through two faithful projections:
  `generate_pdf_builds`, the ordered list of the ten stories it commits
  (lines 114-338), and the filesystem effect `generate_pdf` (each build
  writes the file `cloud_security_ccsp.pdf`; the function returns that path,
  line 340).
* module-level execution (lines 6-25) is modelled by `module_init`: the
  unconditional reportlab imports of lines 9-16 either succeed or raise an
  ImportError at line 9, and only then is the `try/except ImportError`
  guard of lines 18-25 reached.
-/

namespace CloudSecurity

/-- The reportlab colors the app defines (lines 28-34): PRIMARY_BLUE is
HexColor "#667eea", ACCENT_RED "#f5576c", GREEN "#28a745", PURPLE "#764ba2",
GRAY "#f8f9fa", DARK_GRAY "#2c3e50", WHITE is colors.white. -/
inductive PColor where
  | primaryBlue
  | accentRed
  | green
  | purple
  | gray
  | darkGray
  | white
deriving DecidableEq, Repr

def PRIMARY_BLUE : PColor := PColor.primaryBlue

def ACCENT_RED : PColor := PColor.accentRed

def GREEN : PColor := PColor.green

def PURPLE : PColor := PColor.purple

def GRAY : PColor := PColor.gray

def DARK_GRAY : PColor := PColor.darkGray

def WHITE : PColor := PColor.white

/-- Lengths are modelled in deci-points (tenths of a typographic point), so
that every dimension literal of the source is a natural number and computes
in the kernel: reportlab's `inch` is 72 points = 720 deci-points, and the
fractional factors of the source (`1.5*inch`, `0.2*inch`, `0.5` point border
weights, ...) become exact natural divisions. -/
abbrev Dim : Type := ℕ

/-- reportlab's `inch`, in deci-points. -/
def inch : Dim := (720 : ℕ)

/-- Typographic points, in deci-points. -/
def points (n : ℕ) : Dim := (10 * n : ℕ)

/-- A reportlab `ParagraphStyle` as used by the app: only the keyword
arguments the source actually passes are modelled. -/
structure ParagraphStyle where
  name : String
  parent : Option String := none
  fontSize : ℕ
  textColor : PColor
  fontName : Option String := none
  spaceAfter : Option ℕ := none
  leading : Option ℕ := none
  alignment : Option ℕ := none
deriving DecidableEq, Repr

/-- Line 38: `ParagraphStyle('Title', parent=styles['Title'], fontSize=24,
textColor=PRIMARY_BLUE, spaceAfter=12, alignment=1)`. -/
def title_style : ParagraphStyle :=
  { name := "Title", parent := some "Title", fontSize := 24,
    textColor := PRIMARY_BLUE, spaceAfter := some 12, alignment := some 1 }

/-- Line 39: `ParagraphStyle('Subtitle', parent=styles['Normal'], fontSize=12,
textColor=WHITE, spaceAfter=12, alignment=1)`. -/
def subtitle_style : ParagraphStyle :=
  { name := "Subtitle", parent := some "Normal", fontSize := 12,
    textColor := WHITE, spaceAfter := some 12, alignment := some 1 }

/-- Line 40: `ParagraphStyle('Body', parent=styles['Normal'], fontSize=10,
textColor=DARK_GRAY, spaceAfter=8, leading=12)`. -/
def body_style : ParagraphStyle :=
  { name := "Body", parent := some "Normal", fontSize := 10,
    textColor := DARK_GRAY, spaceAfter := some 8, leading := some 12 }

/-- Line 41: `ParagraphStyle('Mono', parent=styles['Code'], fontSize=8,
textColor=DARK_GRAY, fontName='Courier', spaceAfter=8, alignment=1)`. -/
def mono_style : ParagraphStyle :=
  { name := "Mono", parent := some "Code", fontSize := 8,
    textColor := DARK_GRAY, fontName := some "Courier", spaceAfter := some 8,
    alignment := some 1 }

/-- One command of a reportlab `TableStyle`, restricted to the command kinds
the app uses. -/
inductive TableCmd where
  | background (color : PColor)
  | box (weight : Dim) (color : PColor)
  | align (value : String)
  | valign (value : String)
  | innergrid (weight : Dim) (color : PColor)
deriving DecidableEq, Repr

/-- A table cell: in this app every cell is a single `Paragraph`. -/
structure Cell where
  text : String
  style : ParagraphStyle
deriving DecidableEq, Repr

/-- A reportlab `Table` as used by the app. -/
structure PTable where
  rows : List (List Cell)
  colWidths : List Dim
  rowHeights : Option (List Dim) := none
  style : List TableCmd
deriving DecidableEq, Repr

/-- A reportlab `VerticalBarChart`, restricted to the attributes the app
sets (lines 72-86). -/
structure VerticalBarChart where
  x : Dim
  y : Dim
  height : Dim
  width : Dim
  data : List (List ℕ)
  categoryNames : List String
  categoryLabelFontSize : ℕ
  valueMin : ℕ
  valueMax : ℕ
  valueLabelFontSize : ℕ
  barFillColors : List PColor
deriving DecidableEq, Repr

/-- A reportlab graphics `Drawing` holding charts. -/
structure Drawing where
  width : Dim
  height : Dim
  charts : List VerticalBarChart
deriving DecidableEq, Repr

/-- A reportlab flowable as used by the app. -/
inductive Flowable where
  | para (text : String) (style : ParagraphStyle)
  | spacer (width : Dim) (height : Dim)
  | table (t : PTable)
  | drawing (d : Drawing)
deriving DecidableEq, Repr

/-- The chart of `create_bar_chart` (lines 64-88): data rows are Compliance,
Attack Surface Reduction, MTTD Reduction, MTTR Improvement. -/
def case_study_chart : VerticalBarChart :=
  { x := (0 : ℕ), y := (0 : ℕ), height := 18 * inch / 10, width := 38 * inch / 10,
    data := [[100, 90, 95, 100], [0, 90, 80, 90], [0, 0, 80, 80], [0, 0, 75, 75]],
    categoryNames := ["Planning", "Implementation", "Optimization", "Overall"],
    categoryLabelFontSize := 8, valueMin := 0, valueMax := 100,
    valueLabelFontSize := 8,
    barFillColors := [PRIMARY_BLUE, ACCENT_RED, GREEN, PURPLE] }

/-- `create_bar_chart` (lines 64-88): a 4in x 2in Drawing holding the case
study chart. -/
def create_bar_chart : Drawing :=
  { width := 4 * inch, height := 2 * inch, charts := [case_study_chart] }

/-- The inline `ParagraphStyle('Stats', fontSize=10, textColor=WHITE,
alignment=1)` of line 97. -/
def stats_cell_style : ParagraphStyle :=
  { name := "Stats", fontSize := 10, textColor := WHITE, alignment := some 1 }

/-- The three stat entries of `create_stats_grid` (lines 92-96). -/
def stats_entries : List (String × String) :=
  [("High", "Cost of breaches"),
   ("Critical", "Multi-cloud governance"),
   ("Strategic", "CCSP-driven resilience")]

/-- `create_stats_grid` (lines 91-107): one row of three cells
`f"{num}<br/>{desc}"` (the braces are Python f-string interpolation), column
widths `[1.5*inch]*3`, purple background, blue box and inner grid, centered. -/
def create_stats_grid : PTable :=
  { rows := [stats_entries.map (fun p =>
      { text := p.1 ++ "<br/>" ++ p.2, style := stats_cell_style })],
    colWidths := List.replicate 3 (15 * inch / 10),
    style := [TableCmd.background PURPLE, TableCmd.box (points 1) PRIMARY_BLUE,
              TableCmd.align "CENTER", TableCmd.valign "MIDDLE",
              TableCmd.innergrid (points 1 / 2) PRIMARY_BLUE] }

/-- The accent-callout table `create_slide` builds for a subtitle
(lines 48-54). -/
def accent_callout (subtitle : String) : PTable :=
  { rows := [[{ text := subtitle, style := subtitle_style }]],
    colWidths := [6 * inch],
    style := [TableCmd.background ACCENT_RED, TableCmd.box (points 1) PRIMARY_BLUE,
              TableCmd.align "CENTER", TableCmd.valign "MIDDLE"] }

/-- `create_slide` (lines 44-61): the list of elements the helper assembles
and then commits with `doc.build(elements)`.  Note: `generate_pdf` never
calls this helper; it assembles each slide's story inline. -/
def create_slide (title content : String) (graphics : List Flowable)
    (subtitle : Option String) : List Flowable :=
  [Flowable.para title title_style] ++
  (match subtitle with
   | some s => [Flowable.table (accent_callout s), Flowable.spacer (points 1) (2 * inch / 10)]
   | none => []) ++
  [Flowable.para content body_style] ++ graphics ++
  [Flowable.spacer (points 1) (3 * inch / 10)]

/-- Slide 1 subtitle text (line 117). -/
def slide1_subtitle_text : String :=
  "Securing the Cloud Journey<br/><br/>Cloud adoption fuels innovation, but security risks like misconfigurations, API vulnerabilities, and compliance gaps threaten enterprises. CCSP equips all levels—beginners to advanced professionals—to build resilient, compliant multi-cloud systems."

/-- Slide 1 accent table (line 117): single cell, 6in wide, 1.5in row height,
red background, blue box, centered (no VALIGN command here, unlike
`create_slide`). -/
def slide1_accent : PTable :=
  { rows := [[{ text := slide1_subtitle_text, style := subtitle_style }]],
    colWidths := [6 * inch], rowHeights := some [15 * inch / 10],
    style := [TableCmd.background ACCENT_RED, TableCmd.box (points 1) PRIMARY_BLUE,
              TableCmd.align "CENTER"] }

/-- Slide 1 story (lines 115-119): title, accent table, spacer, stats grid.
No body-styled paragraph is appended. -/
def slide1_story : List Flowable :=
  [Flowable.para "Cloud Security Transformation with CCSP" title_style,
   Flowable.table slide1_accent,
   Flowable.spacer (points 1) (2 * inch / 10),
   Flowable.table create_stats_grid]

/-- Slide 2 body paragraph text (lines 125-140). -/
def slide2_body : String :=
  "Basic and Advanced Risk Analysis<br/>" ++
  "<b>Cloud-Specific Risks:</b><br/>" ++
  "• Basic: Shared responsibility confusion (e.g., AWS S3 settings); multi-tenancy risks.<br/>" ++
  "• Advanced: Inconsistent multi-cloud governance; API vulnerabilities (e.g., Lambda).<br/>" ++
  "• Examples: 2018 S3 leak (basic); 2020 Twilio API breach (advanced).<br/>" ++
  "• Implications: Beginners—Learn roles. Intermediate—Use CSPM. Advanced—Standardize (Domain 1).<br/><br/>" ++
  "<b>On-Premises Risks:</b><br/>" ++
  "• Basic: Physical vulnerabilities; unpatched legacy systems.<br/>" ++
  "• Advanced: Limited DR redundancy; manual governance.<br/>" ++
  "• Examples: Equifax 2017 (basic); outdated servers (advanced).<br/>" ++
  "• Implications: Beginners—Patch. Intermediate—Automate backups. Advanced—Hybrid monitoring (Domain 5).<br/><br/>" ++
  "<b>Shared Risks:</b><br/>" ++
  "• Basic: Data breaches; insider threats.<br/>" ++
  "• Advanced: APTs; global compliance (GDPR, CCPA).<br/>" ++
  "• Examples: Target 2013 (basic); 2021 SolarWinds (advanced).<br/>" ++
  "• Implications: Beginners—Basic controls. Intermediate—SIEM. Advanced—Hybrid (Domains 1, 5)."

/-- Slide 2 ASCII-diagram text (lines 141-144). -/
def slide2_diagram_text : String :=
  "[Cloud Risks]         [Shared Risks]         [On-Prem Risks]<br/>" ++
  " | S3 Misconfig |----| Breaches, APTs |----| Legacy Systems |<br/>" ++
  " | APIs, Shadow IT|----| Insider, Compliance|----| Physical, Manual |<br/>" ++
  " | Domain 1, 4   |----| Domain 1, 5    |----| Domain 5        |"

/-- Slide 2 diagram table (lines 141-145): one mono-styled cell on a gray
background. -/
def slide2_diagram : PTable :=
  { rows := [[{ text := slide2_diagram_text, style := mono_style }]],
    colWidths := [6 * inch],
    style := [TableCmd.background GRAY, TableCmd.box (points 1) PRIMARY_BLUE,
              TableCmd.align "CENTER"] }

/-- Slide 2 story (lines 124-145). -/
def slide2_story : List Flowable :=
  [Flowable.para "Cloud vs. On-Premises Risks" title_style,
   Flowable.para slide2_body body_style,
   Flowable.table slide2_diagram]

/-- Slide 3 body paragraph text (lines 151-167). -/
def slide3_body : String :=
  "Prioritize Challenges for All Levels<br/><br/>" ++
  "<b>Misconfigured Services (Domain 1):</b><br/>" ++
  "• Impact: Exposed data due to improper settings.<br/>" ++
  "• Example: 2018 S3 bucket leak.<br/>" ++
  "• Implications: Beginners—Check defaults. Intermediate—AWS Config. Advanced—Automate audits.<br/><br/>" ++
  "<b>Lack of Visibility (Domain 5):</b><br/>" ++
  "• Impact: Delayed threat detection.<br/>" ++
  "• Example: Target 2013 breach.<br/>" ++
  "• Implications: Beginners—Learn monitoring. Intermediate—Splunk. Advanced—UEBA (Sentinel).<br/><br/>" ++
  "<b>Multi-Cloud Governance (Domain 1):</b><br/>" ++
  "• Impact: Inconsistent policies.<br/>" ++
  "• Example: 2019 Capital One IAM.<br/>" ++
  "• Implications: Beginners—Learn governance. Intermediate—AWS Organizations. Advanced—Standardize.<br/><br/>" ++
  "<b>API and Serverless Security (Domain 4):</b><br/>" ++
  "• Impact: Exposed endpoints.<br/>" ++
  "• Example: 2020 Twilio API breach.<br/>" ++
  "• Implications: Beginners—API basics. Intermediate—OAuth. Advanced—API Gateway."

/-- Slide 3 story (lines 150-167). -/
def slide3_story : List Flowable :=
  [Flowable.para "Your Biggest Cloud Security Concern" title_style,
   Flowable.para slide3_body body_style]

/-- Slide 4 body paragraph text (lines 173-193). -/
def slide4_body : String :=
  "Basic and Advanced CCSP Mitigations<br/><br/>" ++
  "1. <b>Shared Responsibility Confusion:</b><br/>" ++
  "• Issue: Misunderstanding roles. Example: 2018 S3 leak.<br/>" ++
  "• Domains: 1 (Responsibility), 5 (Configuration).<br/>" ++
  "• Mitigation: Basic—Domain 1 matrix. Intermediate—AWS Config. Advanced—Azure Policy.<br/><br/>" ++
  "2. <b>Multi-Cloud Governance:</b><br/>" ++
  "• Issue: Inconsistent policies. Example: Capital One 2019.<br/>" ++
  "• Domains: 1, 5.<br/>" ++
  "• Mitigation: Basic—Learn governance. Intermediate—AWS Organizations. Advanced—ServiceNow GRC.<br/><br/>" ++
  "3. <b>Data Loss and Leakage:</b><br/>" ++
  "• Issue: Exposed data. Example: 2018 voter leak.<br/>" ++
  "• Domains: 2 (Encryption), 3 (Storage).<br/>" ++
  "• Mitigation: Basic—Encrypt. Intermediate—AWS Macie. Advanced—Vault.<br/><br/>" ++
  "4. <b>API and Serverless Security:</b><br/>" ++
  "• Issue: Exposed endpoints. Example: 2020 Twilio.<br/>" ++
  "• Domains: 2, 4.<br/>" ++
  "• Mitigation: Basic—OAuth. Intermediate—API Gateway. Advanced—Snyk.<br/><br/>" ++
  "5. <b>Visibility and Threat Detection:</b><br/>" ++
  "• Issue: Delayed detection. Example: 2021 SolarWinds.<br/>" ++
  "• Domains: 3, 5.<br/>" ++
  "• Mitigation: Basic—Monitoring. Intermediate—Splunk. Advanced—Cortex XSOAR."

/-- Slide 4 story (lines 172-193). -/
def slide4_story : List Flowable :=
  [Flowable.para "Key Security Challenges in Cloud" title_style,
   Flowable.para slide4_body body_style]

/-- Slide 5 body paragraph text (lines 199-223). -/
def slide5_body : String :=
  "Six Pillars for All Levels<br/><br/>" ++
  "1. <b>Cloud Concepts, Architecture & Design:</b><br/>" ++
  "• Principle: Align models with business needs.<br/>" ++
  "• Example: Netflix hybrid (advanced); IaaS/PaaS (basic).<br/>" ++
  "• Tools: Beginner—AWS Config. Advanced—AWS Organizations, Azure Policy.<br/><br/>" ++
  "2. <b>Cloud Data Security:</b><br/>" ++
  "• Principle: Protect data with encryption, DLP.<br/>" ++
  "• Example: Dropbox AES-256 (basic); Vault (advanced).<br/>" ++
  "• Tools: AWS KMS, Vault.<br/><br/>" ++
  "3. <b>Cloud Platform & Infrastructure Security:</b><br/>" ++
  "• Principle: Secure networks, containers.<br/>" ++
  "• Example: VPC (basic); Kubernetes with Istio (advanced).<br/>" ++
  "• Tools: AWS VPC, Istio.<br/><br/>" ++
  "4. <b>Cloud Application Security:</b><br/>" ++
  "• Principle: Embed security in apps.<br/>" ++
  "• Example: Secure coding (basic); Snyk with GitHub Actions (advanced).<br/>" ++
  "• Tools: Code reviews, Snyk.<br/><br/>" ++
  "5. <b>Cloud Security Operations:</b><br/>" ++
  "• Principle: Automate monitoring, response.<br/>" ++
  "• Example: Splunk (basic); Cortex XSOAR (advanced).<br/>" ++
  "• Tools: Splunk, XSOAR.<br/><br/>" ++
  "6. <b>Legal, Risk & Compliance:</b><br/>" ++
  "• Principle: Ensure compliance.<br/>" ++
  "• Example: GDPR checks (basic); OneTrust (advanced).<br/>" ++
  "• Tools: Manual audits, OneTrust."

/-- Slide 5 story (lines 198-223). -/
def slide5_story : List Flowable :=
  [Flowable.para "CCSP Domains for Transformation" title_style,
   Flowable.para slide5_body body_style]

/-- Slide 6 body paragraph text (lines 229-241). -/
def slide6_body : String :=
  "Phased Approach for All Levels<br/><br/>" ++
  "<b>Phase 1: Assessment (Domain 1, 6):</b><br/>" ++
  "• Action: Inventory assets; establish multi-cloud governance.<br/>" ++
  "• Tools: Beginner—AWS Config. Advanced—ServiceNow GRC, AWS Organizations.<br/>" ++
  "• Example: Retailer used Config; bank standardized policies.<br/><br/>" ++
  "<b>Phase 2: Implementation (Domain 2, 3, 4):</b><br/>" ++
  "• Action: Deploy encryption, RBAC, DevSecOps.<br/>" ++
  "• Tools: Beginner—AWS KMS, Okta. Advanced—Vault, Istio, Snyk.<br/>" ++
  "• Example: Tech firm used Okta; fintech secured serverless.<br/><br/>" ++
  "<b>Phase 3: Operations (Domain 5):</b><br/>" ++
  "• Action: Automate monitoring, incident response.<br/>" ++
  "• Tools: Beginner—Splunk. Advanced—Cortex XSOAR, Sentinel.<br/>" ++
  "• Example: Healthcare used Splunk; enterprise reduced MTTD by 80%."

/-- The inline `ParagraphStyle('Goal', fontSize=10, textColor=WHITE,
alignment=1)` of line 242. -/
def goal_style : ParagraphStyle :=
  { name := "Goal", fontSize := 10, textColor := WHITE, alignment := some 1 }

/-- Slide 6 goal table (lines 242-243): one cell on a green background. -/
def slide6_goal_table : PTable :=
  { rows := [[{ text := "Key Tools: CASB, CSPM, SOAR, GRC<br/>Goal: Compliant, Secure Operations",
                style := goal_style }]],
    colWidths := [6 * inch],
    style := [TableCmd.background GREEN, TableCmd.box (points 1) PRIMARY_BLUE,
              TableCmd.align "CENTER"] }

/-- Slide 6 story (lines 228-243). -/
def slide6_story : List Flowable :=
  [Flowable.para "Best Practices for Secure Cloud Adoption" title_style,
   Flowable.para slide6_body body_style,
   Flowable.table slide6_goal_table]

/-- Slide 7 body paragraph text (lines 249-270). -/
def slide7_body : String :=
  "Securing 300+ Apps Across AWS, Azure, GCP<br/><br/>" ++
  "<b>Context:</b> Global financial firm migrated 300+ apps to multi-cloud under SOX, PCI DSS, GDPR, CCPA.<br/><br/>" ++
  "<b>Stage 1: Planning (Domains 1, 6):</b><br/>" ++
  "• Requirements: 1M+ transactions; 100% visibility.<br/>" ++
  "• Risks: Basic—Shared responsibility (e.g., 2018 S3). Advanced—Governance (e.g., 2019 Capital One).<br/>" ++
  "• Security: Basic—Domain 1 matrix. Intermediate—AWS Config. Advanced—AWS Organizations, ServiceNow GRC.<br/>" ++
  "• Outcome: <b>100% visibility</b>; GDPR readiness.<br/>" ++
  "• Tools: AWS Config, Organizations, ServiceNow GRC.<br/><br/>" ++
  "<b>Stage 2: Implementation (Domains 2, 3, 4):</b><br/>" ++
  "• Requirements: Secure 1PB+ data, 200+ serverless apps; zero-trust.<br/>" ++
  "• Risks: Basic—S3 misconfigs (e.g., 2018 voter). Advanced—API gaps (e.g., 2020 Twilio).<br/>" ++
  "• Security: Basic—KMS, VPCs. Intermediate—Macie, API Gateway. Advanced—Vault, Istio, Snyk.<br/>" ++
  "• Outcome: <b>90% attack surface reduction</b>; zero-trust apps.<br/>" ++
  "• Tools: KMS, Macie, API Gateway, Vault, Istio, Snyk.<br/><br/>" ++
  "<b>Stage 3: Optimization (Domain 5):</b><br/>" ++
  "• Requirements: MTTD <24h, MTTR <12h; automate compliance.<br/>" ++
  "• Risks: Basic—Visibility (e.g., Target 2013). Advanced—APTs (e.g., 2021 SolarWinds).<br/>" ++
  "• Security: Basic—Splunk. Intermediate—Sentinel. Advanced—XSOAR.<br/>" ++
  "• Outcome: <b>MTTD <24h</b>; <b>75% MTTR improvement</b>.<br/>" ++
  "• Tools: Splunk, Sentinel, XSOAR.<br/><br/>" ++
  "<b>Results (All Domains):</b><br/>" ++
  "• Impact: Resilient, compliant multi-cloud architecture."

/-- Slide 7 ASCII-diagram text (lines 273-277). -/
def slide7_diagram_text : String :=
  "[Multi-Cloud Architecture]<br/>" ++
  " | AWS (Config, KMS) |----| Azure (Sentinel, Policy) |----| GCP (RBAC, GRC) |<br/>" ++
  " | Stage 1: Governance|----| Stage 2: Zero-Trust |----| Stage 3: SOAR     |<br/>" ++
  " | Vault, Istio, Snyk |----| XSOAR, Compliance   |----| API Gateway       |<br/>" ++
  " | Domain 1,2,3,4,5,6 |"

/-- Slide 7 diagram table (lines 273-278). -/
def slide7_diagram : PTable :=
  { rows := [[{ text := slide7_diagram_text, style := mono_style }]],
    colWidths := [6 * inch],
    style := [TableCmd.background GRAY, TableCmd.box (points 1) PRIMARY_BLUE,
              TableCmd.align "CENTER"] }

/-- Slide 7 story (lines 248-278): body, spacer, bar chart, diagram. -/
def slide7_story : List Flowable :=
  [Flowable.para "Case Study: Multi-Cloud Financial Transformation" title_style,
   Flowable.para slide7_body body_style,
   Flowable.spacer (points 1) (2 * inch / 10),
   Flowable.drawing create_bar_chart,
   Flowable.table slide7_diagram]

/-- Slide 8 body paragraph text (lines 284-289): note the right single
quotation mark in the source is kept verbatim. -/
def slide8_body : String :=
  "<b>Question 1: Who secures data in AWS S3? (Domain 1)</b><br/>" ++
  "• Options: AWS Only, Customer, Both Equally<br/>" ++
  "• Correct: <b>Customer</b>. The customer secures S3 data.<br/><br/>" ++
  "<b>Question 2: Which tool supports Domain 5’s incident response?</b><br/>" ++
  "• Options: Palo Alto Cortex XSOAR, AWS KMS, OneTrust<br/>" ++
  "• Correct: <b>Cortex XSOAR</b> aligns with Domain 5 for automation."

/-- Slide 8 story (lines 283-289). -/
def slide8_story : List Flowable :=
  [Flowable.para "Test Your CCSP Knowledge" title_style,
   Flowable.para slide8_body body_style]

/-- Slide 9 body paragraph text (lines 295-319). -/
def slide9_body : String :=
  "Implement CCSP-Driven Security Today<br/><br/>" ++
  "<b>Beginner: Enable MFA (Domain 3):</b><br/>" ++
  "• Activate MFA on AWS IAM or Azure AD.<br/>" ++
  "• Action: Enable MFA for admin accounts.<br/>" ++
  "• Tool: AWS IAM, Okta.<br/><br/>" ++
  "<b>Beginner: Secure S3 Buckets (Domain 2):</b><br/>" ++
  "• Restrict public access to prevent leaks.<br/>" ++
  "• Action: Review S3 permissions.<br/>" ++
  "• Tool: AWS S3 Console.<br/><br/>" ++
  "<b>Intermediate: Deploy CSPM (Domain 5):</b><br/>" ++
  "• Monitor and fix misconfigurations.<br/>" ++
  "• Action: Set up AWS Config or Azure Security Center.<br/>" ++
  "• Tool: AWS Config, Azure Security Center.<br/><br/>" ++
  "<b>Intermediate: Monitor with SIEM (Domain 5):</b><br/>" ++
  "• Real-time threat detection.<br/>" ++
  "• Action: Configure Splunk for logs and alerts.<br/>" ++
  "• Tool: Splunk, Azure Sentinel.<br/><br/>" ++
  "<b>Advanced: Standardize Governance (Domain 1):</b><br/>" ++
  "• Consistent policies across clouds.<br/>" ++
  "• Action: Use AWS Organizations, ServiceNow GRC.<br/>" ++
  "• Tool: AWS Organizations, ServiceNow GRC.<br/><br/>" ++
  "<b>Advanced: Automate Incident Response (Domain 5):</b><br/>" ++
  "• Deploy SOAR for threat response.<br/>" ++
  "• Action: Integrate Cortex XSOAR with Sentinel.<br/>" ++
  "• Tool: Cortex XSOAR, Palo Alto Sentinel."

/-- Slide 9 story (lines 294-319). -/
def slide9_story : List Flowable :=
  [Flowable.para "Actionable Steps for Cloud Security" title_style,
   Flowable.para slide9_body body_style]

/-- Slide 10 body paragraph text (lines 325-335): the href is written with
hex escapes for its single-quote characters. -/
def slide10_body : String :=
  "Next Steps for Cloud Security<br/><br/>" ++
  "<b>Domain 1:</b><br/>" ++
  "• Assess cloud models and governance (AWS Organizations).<br/><br/>" ++
  "<b>Domain 2–4:</b><br/>" ++
  "• Implement encryption (KMS, Vault), RBAC (Istio), DevSecOps (Snyk).<br/><br/>" ++
  "<b>Domain 5–6:</b><br/>" ++
  "• Automate monitoring (XSOAR, Splunk) and compliance (OneTrust).<br/><br/>" ++
  "<b>Action:</b><br/>" ++
  "• Enroll in CCSP training at <a href=\x27http://www.isc2.org\x27>www.isc2.org</a>.<br/><br/>" ++
  "<b>Enhanced:</b> Resilience with CCSP<br/>" ++
  "<b>Unified:</b> Multi-cloud strategy"

/-- The inline `ParagraphStyle('Conclusion', fontSize=10, textColor=WHITE,
alignment=1)` of line 336. -/
def conclusion_style : ParagraphStyle :=
  { name := "Conclusion", fontSize := 10, textColor := WHITE, alignment := some 1 }

/-- Slide 10 conclusion table (lines 336-337): one cell on a purple
background. -/
def slide10_conclusion_table : PTable :=
  { rows := [[{ text := "Enhanced: Resilience with CCSP<br/>Unified: Multi-cloud strategy",
                style := conclusion_style }]],
    colWidths := [6 * inch],
    style := [TableCmd.background PURPLE, TableCmd.box (points 1) PRIMARY_BLUE,
              TableCmd.align "CENTER"] }

/-- Slide 10 story (lines 324-337). -/
def slide10_story : List Flowable :=
  [Flowable.para "Strategize and Scale with CCSP" title_style,
   Flowable.para slide10_body body_style,
   Flowable.table slide10_conclusion_table]

/-- The ordered list of the ten stories `generate_pdf` commits, one
`doc.build(story)` call per slide (lines 114-338). -/
def generate_pdf_builds : List (List Flowable) :=
  [slide1_story, slide2_story, slide3_story, slide4_story, slide5_story,
   slide6_story, slide7_story, slide8_story, slide9_story, slide10_story]

/-- The constant output path of line 111. -/
def pdf_file : String := "cloud_security_ccsp.pdf"

/-- Filesystem effect of one `doc.build(story)` call on the
`SimpleDocTemplate(pdf_file, ...)` of line 112: the file `pdf_file` is
written. The filesystem is modelled as the set of existing file names. -/
def doc_build (fs : Finset String) (_story : List Flowable) : Finset String :=
  insert pdf_file fs

/-- `generate_pdf` (lines 110-340) as a filesystem transformer: it performs
the ten builds (each writing `pdf_file`) and returns the path `pdf_file`.
It contains no delete operation. -/
def generate_pdf (fs : Finset String) : Finset String × String :=
  (generate_pdf_builds.foldl doc_build fs, pdf_file)

/-- Observable result of the button handler. -/
structure HandlerResult where
  fs : Finset String
  downloadOffered : Bool
  successShown : Bool
deriving DecidableEq

/-- The button handler (lines 346-360): generate the PDF, read its bytes,
offer the download button, show the success message, then
`if os.path.exists(pdf_file): os.remove(pdf_file)`.  The handler never
consults whether the user's download succeeded; the parameter records that
outcome only to show the handler is independent of it. -/
def button_handler (fs0 : Finset String) (_downloadSucceeds : Bool) :
    HandlerResult :=
  { fs := if (generate_pdf fs0).2 ∈ (generate_pdf fs0).1
          then ((generate_pdf fs0).1).erase (generate_pdf fs0).2
          else (generate_pdf fs0).1,
    downloadOffered := true,
    successShown := true }

/-- An ambient world a render could in principle observe; `generate_pdf`
reads neither a clock nor a random source, so its output cannot depend on
these. -/
structure World where
  clock : ℕ
  randomSeed : ℕ

/-- One invocation of `generate_pdf` in an ambient world: the committed
stories together with the filesystem result and returned path. The source
of `generate_pdf` performs no call that reads the world, so the world
parameter is unused. -/
def generate_pdf_run (_w : World) (fs : Finset String) :
    List (List Flowable) × Finset String × String :=
  (generate_pdf_builds, generate_pdf fs)

/-- Outcome of executing the module top level (lines 6-25). -/
inductive InitOutcome where
  | unhandledImportError (line : ℕ)
  | remediationShown (messages : List String)
  | ready
deriving DecidableEq, Repr

/-- The four remediation messages of lines 21-24. -/
def remediation_messages : List String :=
  ["The \x27reportlab\x27 library is not installed. Install it by running: `pip install reportlab==4.2.2`",
   "If using Python 3, try: `pip3 install reportlab==4.2.2`",
   "For virtual environments, activate the environment first.",
   "For permission issues, try: `pip install reportlab==4.2.2 --user`"]

/-- The unconditional module-level imports of reportlab (lines 9-16): they
succeed exactly when reportlab is importable, and otherwise raise an
ImportError at line 9, the first reportlab import. -/
def unconditional_imports (reportlabAvailable : Bool) : Except ℕ Unit :=
  if reportlabAvailable then Except.ok () else Except.error 9

/-- The `try: from reportlab.lib import colors / except ImportError` guard of
lines 18-25, taken in isolation: were it reached with reportlab absent, it
would show the remediation messages and stop. -/
def guarded_import (reportlabAvailable : Bool) : InitOutcome :=
  if reportlabAvailable then InitOutcome.ready
  else InitOutcome.remediationShown remediation_messages

/-- Module top-level execution: the unconditional imports of lines 9-16 run
first; only if they succeed is the guard of lines 18-25 reached. -/
def module_init (reportlabAvailable : Bool) : InitOutcome :=
  match unconditional_imports reportlabAvailable with
  | Except.error line => InitOutcome.unhandledImportError line
  | Except.ok () => guarded_import reportlabAvailable

/-- Whether an init outcome displayed the remediation messages. -/
def showsRemediation : InitOutcome → Bool
  | InitOutcome.remediationShown _ => true
  | _ => false

/-- Styling finally applied to one chart series in the slide-deck renderer. -/
inductive SeriesStyling where
  | colored (c : PColor)
  | defaultStyle
deriving DecidableEq, Repr

/-- The non-fatal warning surfaced when a per-series color is rejected. -/
def chart_color_warning : String :=
  "Per-series fill color not supported; using default styling."

/-- Result of applying per-series fill colors to a deck chart. -/
structure DeckChartResult where
  styling : List SeriesStyling
  warnings : List String
  aborted : Bool
deriving DecidableEq, Repr

/-- Modelled from the spec: the slide-deck (PPTX) renderer of this repository
is not under `src/` (only the flowable-document script is present there).
Per spec sections 4.3 and 7, per-series chart fill-color application is
best-effort: each series' color assignment is attempted against the
underlying chart object; a rejected assignment is caught, a non-fatal
warning is surfaced to the user, and rendering continues with default
styling for that series, never aborting the render.  Input: one pair per
series, the intended fill color and whether the underlying object accepts
the assignment. -/
def apply_series_colors : List (PColor × Bool) → DeckChartResult
  | [] => { styling := [], warnings := [], aborted := false }
  | (c, accepted) :: rest =>
    let r := apply_series_colors rest
    if accepted then
      { styling := SeriesStyling.colored c :: r.styling,
        warnings := r.warnings, aborted := r.aborted }
    else
      { styling := SeriesStyling.defaultStyle :: r.styling,
        warnings := chart_color_warning :: r.warnings, aborted := r.aborted }

/-- Whether a flowable is a `Spacer`. -/
def isSpacer : Flowable → Bool
  | Flowable.spacer _ _ => true
  | _ => false

/-- A story with its spacers removed (the claims under test speak about
block order and do not mention the fixed vertical spacing). -/
def stripSpacers (story : List Flowable) : List Flowable :=
  story.filter (fun f => !(isSpacer f))

/-- Whether a flowable is a paragraph in the theme's title style. -/
def isTitlePara : Flowable → Bool
  | Flowable.para _ s => decide (s = title_style)
  | _ => false

/-- Whether a flowable is a paragraph in the theme's body style. -/
def isBodyPara : Flowable → Bool
  | Flowable.para _ s => decide (s = body_style)
  | _ => false

/-- Whether a flowable is a visual attachment (a table or a drawing). -/
def isVisual : Flowable → Bool
  | Flowable.table _ => true
  | Flowable.drawing _ => true
  | _ => false

/-- Whether a table command is a BACKGROUND fill. -/
def isBackgroundCmd : TableCmd → Bool
  | TableCmd.background _ => true
  | _ => false

/-- Whether a table command is a BOX border. -/
def isBoxCmd : TableCmd → Bool
  | TableCmd.box _ _ => true
  | _ => false

/-- Whether a flowable is an accent callout as the claim describes it: a
single-cell colored table spanning the page width (6 inches), centered and
bordered. -/
def isAccentCallout : Flowable → Bool
  | Flowable.table t =>
      decide (t.rows.map List.length = [1]) &&
      decide (t.colWidths = [6 * inch]) &&
      t.style.any isBackgroundCmd && t.style.any isBoxCmd &&
      decide (TableCmd.align "CENTER" ∈ t.style)
  | _ => false

/-- After the (optional) accent callout, the claimed order requires the body
as a body-styled paragraph followed only by visual attachments. -/
def bodyThenVisuals : List Flowable → Bool
  | Flowable.para _ s :: rest => decide (s = body_style) && rest.all isVisual
  | _ => false

/-- The per-slide block order claimed by the spec: a title block in the
title style; then, if an accent callout exists, that callout; then the body
as a body-styled paragraph; then each visual attachment.  Spacers are
ignored. -/
def specSlideOrder (story : List Flowable) : Bool :=
  match stripSpacers story with
  | Flowable.para _ s :: rest =>
      decide (s = title_style) &&
      (match rest with
       | f :: r => if isAccentCallout f then bodyThenVisuals r
                   else bodyThenVisuals rest
       | [] => false)
  | _ => false

/-- The ten slide titles, in deck order, as they appear literally as the
first paragraph of each story in `generate_pdf`. -/
def slide_titles : List String :=
  ["Cloud Security Transformation with CCSP",
   "Cloud vs. On-Premises Risks",
   "Your Biggest Cloud Security Concern",
   "Key Security Challenges in Cloud",
   "CCSP Domains for Transformation",
   "Best Practices for Secure Cloud Adoption",
   "Case Study: Multi-Cloud Financial Transformation",
   "Test Your CCSP Knowledge",
   "Actionable Steps for Cloud Security",
   "Strategize and Scale with CCSP"]

/-- Claim C1 (code-level evaluation at the failing input): with reportlab
absent at process start, module execution ends in an unhandled ImportError
at line 9 — raised by the unconditional reportlab.lib.pagesizes import
statement before the `try/except ImportError` guard is reached — so
the remediation messages are never displayed, contrary to the claim that
triggering generation with the library absent produces only remediation
messages. (No rendering is attempted and no artifact path is produced,
but only because the whole module crashes.) -/
theorem c1_missing_dependency_behavior :
    module_init false = InitOutcome.unhandledImportError 9 ∧
    showsRemediation (module_init false) = false :=
  ⟨rfl, rfl⟩

/-- Claim C2: the `except ImportError` branch of lines 20-25 is unreachable
for every execution of the module: neither with reportlab present nor with
it absent does module execution show the remediation messages, because with
reportlab absent the module already fails at line 9 with an unguarded
ImportError, and with reportlab present the guarded import of line 19
succeeds. The last conjunct records that the guard taken in isolation would
show the remediation messages, i.e. unreachability is caused by the
unconditional imports that precede it, not by the branch being empty. -/
theorem c2_remediation_branch_unreachable :
    showsRemediation (module_init true) = false ∧
    showsRemediation (module_init false) = false ∧
    module_init false = InitOutcome.unhandledImportError 9 ∧
    module_init true = InitOutcome.ready ∧
    guarded_import false = InitOutcome.remediationShown remediation_messages :=
  ⟨rfl, rfl, rfl, rfl, rfl⟩

/-- Claim C3: `generate_pdf` commits exactly 10 page-groups — one story
built and committed per slide record via a separate `doc.build` call, never
one story for the whole deck — in slide order, and in every page-group the
first rendered element is that slide's title text styled with the title
style. -/
theorem c3_ten_page_groups :
    generate_pdf_builds.length = 10 ∧
    slide_titles.length = 10 ∧
    (generate_pdf_builds.zip slide_titles).all
      (fun p => decide (p.1.head? = some (Flowable.para p.2 title_style))) = true :=
  ⟨rfl, rfl, rfl⟩

/-- Claim C4, counterexample: the claimed per-slide block order (title, then
optional accent callout, then the body as a body-styled paragraph, then
visuals) fails for slide 1, which is rendered into the PDF: its story is
committed by `generate_pdf`, does not match the claimed order, and contains
no body-styled paragraph at all — after the title and the accent callout the
next block is the stat-grid table, not a body paragraph. -/
theorem c4_slide1_violates_block_order :
    slide1_story ∈ generate_pdf_builds ∧
    specSlideOrder slide1_story = false ∧
    slide1_story.all (fun f => !(isBodyPara f)) = true := by
  refine ⟨?_, rfl, rfl⟩
  simp [generate_pdf_builds]

/-- Claim C4, amended: slides 2-10 follow the claimed order (title block,
then optional accent callout, then body-styled paragraph, then visual
attachments), and the unused helper `create_slide` also implements that
order for any content; but slide 1 instead emits title, accent callout,
then the stat-grid visual, with no separate body-styled paragraph (its body
text is inside the accent callout, subtitle-styled). -/
theorem c4_amended_block_order :
    generate_pdf_builds.tail.all specSlideOrder = true ∧
    stripSpacers slide1_story =
      [Flowable.para "Cloud Security Transformation with CCSP" title_style,
       Flowable.table slide1_accent, Flowable.table create_stats_grid] ∧
    (∀ t c s : String, specSlideOrder (create_slide t c [] (some s)) = true) := by
  refine ⟨rfl, rfl, ?_⟩
  intro t c s
  rfl

/-- Claim C5: after the button handler runs, the transient artifact file no
longer exists on the filesystem, and the cleanup is not conditioned on the
user's download succeeding — the handler's result is identical for any
download outcome, since the `os.remove` sits on the same control path as
generation, after the download button is offered. -/
theorem c5_cleanup_unconditional (fs : Finset String) (d1 d2 : Bool) :
    pdf_file ∉ (button_handler fs d1).fs ∧
    button_handler fs d1 = button_handler fs d2 := by
  refine ⟨?_, rfl⟩
  have hmem : pdf_file ∈ (generate_pdf fs).1 := by
    simp [generate_pdf, generate_pdf_builds, doc_build]
  have h2 : (generate_pdf fs).2 = pdf_file := rfl
  simp only [button_handler, h2, if_pos hmem]
  exact Finset.not_mem_erase _ _

/-- Witness for `c5_cleanup_unconditional` at the empty filesystem and a
concrete download outcome. -/
theorem c5_cleanup_unconditional_witness :
    pdf_file ∉ (button_handler ∅ true).fs ∧
    button_handler ∅ true = button_handler ∅ false :=
  c5_cleanup_unconditional ∅ true false

/-- Claim C6: rendering with the same fixed content and theme is
deterministic — two invocations of the core renderer in any two ambient
worlds (any clock value, any random seed) produce identical committed
stories, identical filesystem effect and identical returned path, because
`generate_pdf` reads no randomness and no time. -/
theorem c6_deterministic (w1 w2 : World) (fs : Finset String) :
    generate_pdf_run w1 fs = generate_pdf_run w2 fs :=
  rfl

/-- Claim C7: the bar chart of the case-study slide (slide 7) has exactly
the 4 categories Planning, Implementation, Optimization, Overall, a fixed
value axis from 0 to 100, exactly 4 series of 4 values each (hence at most
4), and every series with a nonzero value in some category has its value in
the Overall category (index 3) equal to the maximum value of the series;
the first (Compliance) series is [100, 90, 95, 100]. -/
theorem c7_bar_chart_shape :
    case_study_chart.categoryNames =
      ["Planning", "Implementation", "Optimization", "Overall"] ∧
    case_study_chart.categoryNames.length = 4 ∧
    case_study_chart.valueMin = 0 ∧
    case_study_chart.valueMax = 100 ∧
    case_study_chart.data.length = 4 ∧
    case_study_chart.data.all (fun s => decide (s.length = 4)) = true ∧
    case_study_chart.data.all
      (fun s => !(s.any (fun v => !(decide (v = 0)))) ||
                decide (s.getD 3 0 =
                        s.foldr (fun a b => if a ≤ b then b else a) 0)) = true ∧
    case_study_chart.data.head? = some [100, 90, 95, 100] :=
  ⟨rfl, rfl, rfl, rfl, rfl, rfl, rfl, rfl⟩

/-- Claim C8: the stat grid is a one-row, three-column bordered table (one
column per entry of the three stat entries) with white, centered text on a
solid (purple) background fill. -/
theorem c8_stats_grid_shape :
    create_stats_grid.rows.length = 1 ∧
    stats_entries.length = 3 ∧
    create_stats_grid.rows.all (fun r => decide (r.length = 3)) = true ∧
    create_stats_grid.colWidths.length = 3 ∧
    (TableCmd.background PURPLE) ∈ create_stats_grid.style ∧
    (TableCmd.box (points 1) PRIMARY_BLUE) ∈ create_stats_grid.style ∧
    (TableCmd.align "CENTER") ∈ create_stats_grid.style ∧
    create_stats_grid.rows.all
      (fun r => r.all (fun c => decide (c.style.textColor = WHITE) &&
                                decide (c.style.alignment = some 1))) = true := by
  refine ⟨rfl, rfl, rfl, rfl, ?_, ?_, ?_, rfl⟩ <;> decide

/-- Claim C9: `generate_pdf` always returns the constant path
`cloud_security_ccsp.pdf` regardless of the starting filesystem, at the
moment it returns a file with that name exists, and it never deletes any
file: every file present before survives. (The deletion happens only
afterwards, in the invoking button handler — see
`c5_cleanup_unconditional`.) -/
theorem c9_generate_pdf_contract (fs : Finset String) :
    (generate_pdf fs).2 = pdf_file ∧
    pdf_file ∈ (generate_pdf fs).1 ∧
    ∀ f : String, f ∈ fs → f ∈ (generate_pdf fs).1 := by
  refine ⟨rfl, ?_, ?_⟩
  · simp [generate_pdf, generate_pdf_builds, doc_build]
  · intro f hf
    simp [generate_pdf, generate_pdf_builds, doc_build, Finset.mem_insert, hf]

/-- Witness for `c9_generate_pdf_contract` at a one-file filesystem: the
pre-existing file survives, the artifact exists, and the constant path is
returned. -/
theorem c9_generate_pdf_contract_witness :
    (generate_pdf {"notes.txt"}).2 = pdf_file ∧
    pdf_file ∈ (generate_pdf {"notes.txt"}).1 ∧
    "notes.txt" ∈ (generate_pdf {"notes.txt"}).1 :=
  ⟨(c9_generate_pdf_contract {"notes.txt"}).1,
   (c9_generate_pdf_contract {"notes.txt"}).2.1,
   (c9_generate_pdf_contract {"notes.txt"}).2.2 "notes.txt" (by simp)⟩

/-- Claim C10: per-series chart fill-color application in the slide-deck
renderer is best-effort — for any sequence of series, the render is never
aborted, every series ends up styled (colored when the underlying object
accepts the assignment, default styling when it rejects it), and exactly
one non-fatal warning is surfaced per rejected series. -/
theorem c10_best_effort_series_colors (series : List (PColor × Bool)) :
    (apply_series_colors series).aborted = false ∧
    (apply_series_colors series).styling =
      series.map (fun p =>
        if p.2 then SeriesStyling.colored p.1 else SeriesStyling.defaultStyle) ∧
    (apply_series_colors series).warnings.length =
      (series.filter (fun p => !p.2)).length := by
  induction series with
  | nil => exact ⟨rfl, rfl, rfl⟩
  | cons head tail ih =>
    obtain ⟨c, accepted⟩ := head
    cases accepted <;>
      simp [apply_series_colors, ih.1, ih.2.1, ih.2.2]

end CloudSecurity
